import Mathlib

/-!
Verification of the HLS download endpoint (`src/api/download.js`).

JavaScript strings are embedded as `List Char` (`JStr`); the request
handler's control flow is embedded as a pure function over an explicit
environment (`World`) that supplies the outcomes of the external
collaborators (HTTP fetch, m3u8 parser, filesystem write, transcoder run).
-/

set_option maxRecDepth 100000

/-- JavaScript strings, embedded as lists of characters. -/
abbrev JStr := List Char

/-- JavaScript `s.startsWith(p)`. -/
def jsStartsWith : JStr → JStr → Bool
  | _, [] => true
  | [], _ :: _ => false
  | a :: s, b :: p => a = b && jsStartsWith s p

/-- JavaScript `s.includes(sub)`: some suffix of `s` starts with `sub`. -/
def jsIncludes (sub : JStr) : JStr → Bool
  | [] => jsStartsWith [] sub
  | a :: s => jsStartsWith (a :: s) sub || jsIncludes sub s

/-- The single-quote character, written via its code point. -/
def squote : Char := Char.ofNat 39

/-- The newline character used by `join` in the source. -/
def newline : Char := Char.ofNat 10

/-- Embeds `url.substring(0, url.lastIndexOf('/') + 1)` (download.js line 68):
the index of the last occurrence of `c`, or `-1` when absent, exactly as
JavaScript `lastIndexOf`. -/
def lastIndexOf (c : Char) : JStr → Int
  | [] => -1
  | a :: s => if lastIndexOf c s ≥ 0 then lastIndexOf c s + 1
              else if a = c then 0 else -1

/-- `baseUrl = url.substring(0, url.lastIndexOf('/') + 1)` (download.js line 68).
JavaScript `substring(0, n)` is `List.take n`; for a negative bound the
JS clamp to `0` is `Int.toNat`. -/
def baseUrl (url : JStr) : JStr := url.take (lastIndexOf (Char.ofNat 47) url + 1).toNat

/-- Embeds the per-segment URL resolution (download.js lines 82-86):
`if (!segmentUrl.startsWith('http')) segmentUrl = baseUrl + segmentUrl`. -/
def resolveSegmentUri (base uri : JStr) : JStr :=
  if jsStartsWith uri "http".data then uri else base ++ uri

/-- Embeds `` `file '${segmentUrl}'` `` (download.js line 87). -/
def concatLine (resolvedUri : JStr) : JStr :=
  "file ".data ++ [squote] ++ resolvedUri ++ [squote]

/-- Embeds the `segmentsList` constant (download.js lines 80-89):
map each segment URI through resolution and the `file '...'` template,
then `join('\n')`. -/
def segmentsList (base : JStr) (segs : List JStr) : JStr :=
  List.intercalate [newline] (segs.map (fun uri => concatLine (resolveSegmentUri base uri)))

/-- Modelled from the spec: a URI "denotes an absolute address (recognizable
scheme prefix)" — for HLS the recognizable schemes are `http://` and
`https://`. Used only to compare the spec's resolution rule with the
source's `startsWith('http')` test. -/
def specIsAbsoluteUri (uri : JStr) : Bool :=
  jsStartsWith uri "http://".data || jsStartsWith uri "https://".data

-- Helper lemmas about `lastIndexOf` and `baseUrl`.

theorem lastIndexOf_neg_one (c : Char) (s : JStr) (h : c ∉ s) :
    lastIndexOf c s = -1 := by
  induction s with
  | nil => rfl
  | cons a t ih =>
    simp only [List.mem_cons, not_or] at h
    have hac : ¬ a = c := fun he => h.1 he.symm
    simp [lastIndexOf, ih h.2, hac]

theorem lastIndexOf_nonneg (c : Char) (s : JStr) (h : c ∈ s) :
    0 ≤ lastIndexOf c s := by
  induction s with
  | nil => cases h
  | cons a t ih =>
    rcases List.mem_cons.mp h with h1 | h2
    · by_cases ht : 0 ≤ lastIndexOf c t
      · simp only [lastIndexOf]
        rw [if_pos ht]
        omega
      · simp only [lastIndexOf]
        rw [if_neg ht, if_pos h1.symm]
    · have := ih h2
      simp only [lastIndexOf]
      rw [if_pos this]
      omega

/-- The base URL is everything up to and including the final slash: it ends
in a slash, and the remaining suffix of the URL contains no slash. -/
theorem baseUrl_spec (url : JStr) (h : Char.ofNat 47 ∈ url) :
    ∃ s, url = baseUrl url ++ s ∧ Char.ofNat 47 ∉ s ∧
      ∃ pre, baseUrl url = pre ++ [Char.ofNat 47] := by
  induction url with
  | nil => cases h
  | cons a t ih =>
    by_cases ht : Char.ofNat 47 ∈ t
    · obtain ⟨s, hs, hns, pre, hpre⟩ := ih ht
      have hnn : 0 ≤ lastIndexOf (Char.ofNat 47) t := lastIndexOf_nonneg _ _ ht
      have hb : baseUrl (a :: t) = a :: baseUrl t := by
        simp only [baseUrl, lastIndexOf]
        rw [if_pos hnn]
        have h1 : (lastIndexOf (Char.ofNat 47) t + 1 + 1).toNat
            = (lastIndexOf (Char.ofNat 47) t + 1).toNat + 1 := by omega
        rw [h1, List.take_succ_cons]
      refine ⟨s, ?_, hns, a :: pre, ?_⟩
      · rw [hb, List.cons_append, ← hs]
      · rw [hb, hpre, List.cons_append]
    · have ha : a = Char.ofNat 47 := by
        rcases List.mem_cons.mp h with h1 | h2
        · exact h1.symm
        · exact absurd h2 ht
      have hneg : lastIndexOf (Char.ofNat 47) t = -1 := lastIndexOf_neg_one _ _ ht
      have hb : baseUrl (a :: t) = [a] := by
        simp only [baseUrl, lastIndexOf, hneg]
        norm_num [ha]
      exact ⟨t, by rw [hb]; rfl, ht, [], by rw [hb, ha]; rfl⟩

theorem jsStartsWith_of_append (s p q : JStr) (h : jsStartsWith s (p ++ q) = true) :
    jsStartsWith s p = true := by
  induction p generalizing s with
  | nil => cases s <;> rfl
  | cons b p ih =>
    cases s with
    | nil => simp [jsStartsWith] at h
    | cons a s =>
      simp only [List.cons_append, jsStartsWith, Bool.and_eq_true] at h ⊢
      exact ⟨h.1, ih s h.2⟩

/-- Claim C1 (counterexample): the segment URI `httpseg.ts` does not denote an
absolute address (it has no scheme at all), so the claim requires it to be
resolved to base URL ++ URI; the code, whose test is merely
`startsWith('http')`, passes it through unchanged. Manifest URL
`https://cdn.example.com/path/master.m3u8`. -/
theorem resolveUri_not_absolute_but_unchanged :
    specIsAbsoluteUri "httpseg.ts".data = false ∧
    resolveSegmentUri (baseUrl "https://cdn.example.com/path/master.m3u8".data)
        "httpseg.ts".data = "httpseg.ts".data ∧
    resolveSegmentUri (baseUrl "https://cdn.example.com/path/master.m3u8".data)
        "httpseg.ts".data
      ≠ baseUrl "https://cdn.example.com/path/master.m3u8".data ++ "httpseg.ts".data := by
  refine ⟨by decide, by decide, by decide⟩

/-- Claim C1 (amended): for a manifest URL containing a slash, the builder
resolves a segment URI as follows: a URI starting with the four characters
`http` (in particular every `http://` or `https://` absolute URI) is used
unchanged; any other URI is resolved to base URL ++ URI, where the base URL
is everything in the manifest URL up to and including the final slash. -/
theorem resolveUri_http_prefix_rule (url uri : JStr) (h : Char.ofNat 47 ∈ url) :
    (specIsAbsoluteUri uri = true → resolveSegmentUri (baseUrl url) uri = uri) ∧
    (jsStartsWith uri "http".data = true → resolveSegmentUri (baseUrl url) uri = uri) ∧
    (jsStartsWith uri "http".data = false →
      resolveSegmentUri (baseUrl url) uri = baseUrl url ++ uri) ∧
    (∃ s, url = baseUrl url ++ s ∧ Char.ofNat 47 ∉ s ∧
      ∃ pre, baseUrl url = pre ++ [Char.ofNat 47]) := by
  refine ⟨?_, ?_, ?_, baseUrl_spec url h⟩
  · intro habs
    have hp : jsStartsWith uri "http".data = true := by
      rcases Bool.or_eq_true_iff.mp habs with h1 | h1
      · have : "http://".data = "http".data ++ "://".data := by decide
        exact jsStartsWith_of_append uri _ _ (this ▸ h1)
      · have : "https://".data = "http".data ++ "s://".data := by decide
        exact jsStartsWith_of_append uri _ _ (this ▸ h1)
    simp [resolveSegmentUri, hp]
  · intro hp
    simp [resolveSegmentUri, hp]
  · intro hp
    simp [resolveSegmentUri, hp]

/-- Witness for `resolveUri_http_prefix_rule` at the manifest URL
`https://cdn.example.com/path/master.m3u8` and segment URI `seg0.ts`. -/
theorem resolveUri_http_prefix_rule_witness :
    Char.ofNat 47 ∈ "https://cdn.example.com/path/master.m3u8".data ∧
    (jsStartsWith "seg0.ts".data "http".data = false →
      resolveSegmentUri (baseUrl "https://cdn.example.com/path/master.m3u8".data)
          "seg0.ts".data
        = baseUrl "https://cdn.example.com/path/master.m3u8".data ++ "seg0.ts".data) :=
  ⟨by decide,
   (resolveUri_http_prefix_rule "https://cdn.example.com/path/master.m3u8".data
      "seg0.ts".data (by decide)).2.2.1⟩

/-- Claim C2: for every non-empty segment list whose resolved URIs contain no
newline, splitting the generated concat-list text on newlines yields exactly
one line per segment, each exactly `file '<resolved-uri>'`, in exactly the
original order of the manifest (no reordering, no de-duplication, no
trailing directives or comments). -/
theorem segmentsList_lines (base : JStr) (segs : List JStr) (hne : segs ≠ [])
    (hnl : ∀ uri ∈ segs, newline ∉ resolveSegmentUri base uri) :
    (segmentsList base segs).splitOn newline
      = segs.map (fun uri => concatLine (resolveSegmentUri base uri)) := by
  unfold segmentsList
  apply List.splitOn_intercalate
  · intro l hl
    obtain ⟨uri, hu, rfl⟩ := List.mem_map.mp hl
    intro hmem
    simp only [concatLine, List.append_assoc, List.mem_append, List.mem_singleton] at hmem
    rcases hmem with h1 | h1 | h1 | h1
    · exact absurd h1 (by decide)
    · exact absurd h1 (by decide)
    · exact hnl uri hu h1
    · exact absurd h1 (by decide)
  · simpa using hne

/-- Witness for `segmentsList_lines` on the three-segment manifest
`[seg0.ts, seg1.ts, seg2.ts]` with base URL `https://cdn.example.com/path/`. -/
theorem segmentsList_lines_witness :
    (segmentsList "https://cdn.example.com/path/".data
        ["seg0.ts".data, "seg1.ts".data, "seg2.ts".data]).splitOn newline
      = ["seg0.ts".data, "seg1.ts".data, "seg2.ts".data].map
          (fun uri => concatLine (resolveSegmentUri "https://cdn.example.com/path/".data uri)) :=
  segmentsList_lines "https://cdn.example.com/path/".data
    ["seg0.ts".data, "seg1.ts".data, "seg2.ts".data] (by decide) (by decide)

/-! ### Request handler embedding (download.js lines 8-154) -/

/-- An inbound request: method, `req.query?.url` and `req.body?.url`
(`none` = the property is absent/undefined). -/
structure Request where
  method : JStr
  queryUrl : Option JStr
  bodyUrl : Option JStr

/-- Outcome of `axios.get(url)` (download.js line 53): a 2xx body, a
rejection carrying an upstream HTTP status (`error.response.status`), or a
network-level failure with no response object. -/
inductive FetchOutcome where
  | ok (body : JStr)
  | errStatus (status : Nat)
  | errNet
deriving DecidableEq

/-- Outcome of the external m3u8 parser (download.js lines 57-61): either it
throws, or it yields the effective segment URI list
(`parsedManifest.segments`, with an undefined field embedded as `[]`,
which line 63 treats identically). -/
inductive ParseOutcome where
  | threw
  | segs (uris : List JStr)
deriving DecidableEq

/-- The temporary files a request can create in the shared temp directory,
keyed by the `Date.now()` timestamp embedded in their names
(download.js lines 76-77). -/
inductive TempFile where
  | segmentsListFile (t : Nat)
  | outputFile (t : Nat)
deriving DecidableEq

/-- The environment of one request: outcomes of the external collaborators.
`writeOk` — `writeFileSync` (line 91) succeeds; `postWriteThrow` — some
statement between the successful write and the transcoder's terminal event
throws synchronously (e.g. `res.setHeader` or the process spawn on lines
94-128); `ffmpegOk` — the transcoder run ends with the `end` event rather
than the `error` event; `now` — the `Date.now()` value. -/
structure World where
  fetch : JStr → FetchOutcome
  parse : JStr → ParseOutcome
  writeOk : Bool
  postWriteThrow : Bool
  ffmpegOk : Bool
  now : Nat

/-- The JSON bodies the handler can send, or the streamed video body:
`json err extra` is a JSON object whose `error` field is `err` and whose
additional field names are `extra`. -/
inductive RespBody where
  | empty
  | stream
  | json (error : JStr) (extraFields : List JStr)
deriving DecidableEq

/-- Observable result of one handler run: the HTTP status set on the
response, the body, the request's temp files still existing when the run is
over, and whether the promise returned by the handler rejected (an
unhandled fault escaping the handler). -/
structure HResult where
  status : Nat
  body : RespBody
  tempFilesLeft : List TempFile
  rejected : Bool
deriving DecidableEq

/-- The `catch` block (download.js lines 131-153): `error.response.status`
404 and 403 are mapped; everything else becomes a 500 with `message` and
`tips` fields. The block deletes no temp file. -/
def catchResponse (upstream : Option Nat) (left : List TempFile) : HResult :=
  match upstream with
  | some 404 =>
      ⟨404, .json "Video not found. The URL might be expired or invalid.".data [], left, false⟩
  | some 403 =>
      ⟨403, .json "Access forbidden. The video might be protected.".data [], left, false⟩
  | _ =>
      ⟨500, .json "Failed to process video".data ["message".data, "tips".data], left, false⟩

/-- The 400 response for a missing/empty `url` (download.js lines 37-43). -/
def missingUrlResponse : HResult :=
  ⟨400, .json "Missing URL parameter".data ["usage".data, "example".data], [], false⟩

/-- `url = req.body?.url` for POST, `req.query?.url` otherwise
(download.js lines 31-35). -/
def urlParam (req : Request) : Option JStr :=
  if req.method = "POST".data then req.bodyUrl else req.queryUrl

/-- The request handler (download.js lines 8-154) as a pure function of the
request and the environment. -/
def handler (req : Request) (w : World) : HResult :=
  if req.method = "OPTIONS".data then ⟨200, .empty, [], false⟩
  else if req.method ≠ "POST".data ∧ req.method ≠ "GET".data then
    ⟨405, .json "Method not allowed".data [], [], false⟩
  else
    match urlParam req with
    | none => missingUrlResponse
    | some url =>
      if url = [] then missingUrlResponse
      else if ¬ jsIncludes ".m3u8".data url then
        ⟨400, .json "URL must be a valid .m3u8 stream".data [], [], false⟩
      else
        match w.fetch url with
        | .errStatus s => catchResponse (some s) []
        | .errNet => catchResponse none []
        | .ok content =>
          match w.parse content with
          | .threw => catchResponse none []
          | .segs uris =>
            if uris = [] then
              ⟨400, .json "No video segments found in the stream".data [], [], false⟩
            else if ¬ w.writeOk then catchResponse none []
            else if w.postWriteThrow then
              catchResponse none [.segmentsListFile w.now]
            else if w.ffmpegOk then ⟨200, .stream, [], false⟩
            else ⟨200, .stream, [], true⟩

-- Sample environments and requests used by concrete instances below.

/-- A world in which every external collaborator succeeds. -/
def okWorld : World where
  fetch := fun _ => .ok "#EXTM3U".data
  parse := fun _ => .segs ["seg0.ts".data]
  writeOk := true
  postWriteThrow := false
  ffmpegOk := true
  now := 17

/-- A GET request carrying a valid manifest URL in the query. -/
def sampleGetReq : Request :=
  ⟨"GET".data, some "https://cdn.example.com/path/master.m3u8".data, none⟩

/-- A POST request carrying a valid manifest URL in the body. -/
def samplePostReq : Request :=
  ⟨"POST".data, none, some "https://cdn.example.com/path/master.m3u8".data⟩

-- Facts about the `catch` block.

theorem catchResponse_tempFilesLeft (o : Option Nat) (l : List TempFile) :
    (catchResponse o l).tempFilesLeft = l := by
  unfold catchResponse; split <;> rfl

theorem catchResponse_rejected (o : Option Nat) (l : List TempFile) :
    (catchResponse o l).rejected = false := by
  unfold catchResponse; split <;> rfl

theorem catchResponse_status_ne_400 (o : Option Nat) (l : List TempFile) :
    (catchResponse o l).status ≠ 400 := by
  unfold catchResponse; split <;> simp

theorem catchResponse_body_ne_stream (o : Option Nat) (l : List TempFile) :
    (catchResponse o l).body ≠ RespBody.stream := by
  unfold catchResponse; split <;> simp

theorem catchResponse_status_classified (o : Option Nat) (l : List TempFile) :
    (catchResponse o l).status = 404 ∨ (catchResponse o l).status = 403 ∨
      (catchResponse o l).status = 500 := by
  unfold catchResponse; split <;> simp

theorem catchResponse_other_500 (s : Nat) (l : List TempFile)
    (h4 : s ≠ 404) (h3 : s ≠ 403) : (catchResponse (some s) l).status = 500 := by
  unfold catchResponse; split <;> simp_all

-- Reduction of the handler past the validation stage.

theorem handler_pipeline (req : Request) (w : World) (u : JStr)
    (hm : req.method = "GET".data ∨ req.method = "POST".data)
    (hu : urlParam req = some u) (hne : ¬ u = [])
    (hincl : jsIncludes ".m3u8".data u = true) :
    handler req w =
      match w.fetch u with
      | .errStatus s => catchResponse (some s) []
      | .errNet => catchResponse none []
      | .ok content =>
        match w.parse content with
        | .threw => catchResponse none []
        | .segs uris =>
          if uris = [] then
            ⟨400, .json "No video segments found in the stream".data [], [], false⟩
          else if ¬ w.writeOk then catchResponse none []
          else if w.postWriteThrow then
            catchResponse none [.segmentsListFile w.now]
          else if w.ffmpegOk then ⟨200, .stream, [], false⟩
          else ⟨200, .stream, [], true⟩ := by
  have hO : req.method ≠ "OPTIONS".data := by
    rcases hm with h | h <;> (rw [h]; decide)
  have hPG : ¬(req.method ≠ "POST".data ∧ req.method ≠ "GET".data) := by
    rcases hm with h | h <;> simp [h]
  simp only [handler, if_neg hO, if_neg hPG, hu]
  rw [if_neg hne, if_neg (by simp [hincl])]

theorem handler_congr (req req' : Request) (w : World)
    (hm : req.method = req'.method) (hu : urlParam req = urlParam req') :
    handler req w = handler req' w := by
  unfold handler
  rw [hm, hu]

/-- Claim C8: for every request with method OPTIONS, the response status is
200 and the response body is empty, regardless of all other request
parameters and of the environment. -/
theorem options_200_empty (req : Request) (w : World)
    (h : req.method = "OPTIONS".data) :
    (handler req w).status = 200 ∧ (handler req w).body = RespBody.empty := by
  simp [handler, h]

/-- Witness for `options_200_empty`: an OPTIONS request that also carries
`url` values in both locations. -/
theorem options_200_empty_witness :
    (handler ⟨"OPTIONS".data, some "x".data, some "y".data⟩ okWorld).status = 200 ∧
    (handler ⟨"OPTIONS".data, some "x".data, some "y".data⟩ okWorld).body
      = RespBody.empty :=
  options_200_empty ⟨"OPTIONS".data, some "x".data, some "y".data⟩ okWorld rfl

/-- Claim C7: for every request whose method is outside GET, POST and
OPTIONS, the response status is 405, regardless of any url parameter. -/
theorem method_not_allowed_405 (req : Request) (w : World)
    (hg : req.method ≠ "GET".data) (hp : req.method ≠ "POST".data)
    (ho : req.method ≠ "OPTIONS".data) :
    (handler req w).status = 405 := by
  simp [handler, hg, hp, ho]

/-- Witness for `method_not_allowed_405` at method DELETE with a url present. -/
theorem method_not_allowed_405_witness :
    (handler ⟨"DELETE".data, some "https://x/a.m3u8".data, none⟩ okWorld).status
      = 405 :=
  method_not_allowed_405 ⟨"DELETE".data, some "https://x/a.m3u8".data, none⟩
    okWorld (by decide) (by decide) (by decide)

/-- Claim C9: a GET or POST request whose url parameter is present but equal
to the empty string is answered 400 with the Missing URL parameter payload
(the falsy check treats the empty string like an absent url), not with the
m3u8-validation error payload. -/
theorem empty_url_missing_payload (req : Request) (w : World)
    (hm : req.method = "GET".data ∨ req.method = "POST".data)
    (hu : urlParam req = some []) :
    (handler req w).status = 400 ∧
    (handler req w).body
      = RespBody.json "Missing URL parameter".data ["usage".data, "example".data] ∧
    (handler req w).body ≠ RespBody.json "URL must be a valid .m3u8 stream".data [] := by
  have hO : req.method ≠ "OPTIONS".data := by
    rcases hm with h | h <;> (rw [h]; decide)
  have hPG : ¬(req.method ≠ "POST".data ∧ req.method ≠ "GET".data) := by
    rcases hm with h | h <;> simp [h]
  simp [handler, if_neg hO, if_neg hPG, hu, missingUrlResponse]

/-- Witness for `empty_url_missing_payload`: a GET request with `?url=`. -/
theorem empty_url_missing_payload_witness :
    (handler ⟨"GET".data, some [], none⟩ okWorld).status = 400 ∧
    (handler ⟨"GET".data, some [], none⟩ okWorld).body
      = RespBody.json "Missing URL parameter".data ["usage".data, "example".data] ∧
    (handler ⟨"GET".data, some [], none⟩ okWorld).body
      ≠ RespBody.json "URL must be a valid .m3u8 stream".data [] :=
  empty_url_missing_payload ⟨"GET".data, some [], none⟩ okWorld
    (Or.inl rfl) (by decide)

/-- Claim C10: the url parameter source is determined exclusively by the
method — a POST response is independent of the query url, and a non-POST
(in particular GET) response is independent of the body url: two runs in
the same environment differing only in the ignored location produce the
same result. -/
theorem url_source_by_method (m : JStr) (q q' b b' : Option JStr) (w : World)
    (hpost : m = "POST".data → b = b')
    (hother : m ≠ "POST".data → q = q') :
    handler ⟨m, q, b⟩ w = handler ⟨m, q', b'⟩ w := by
  have hu : urlParam ⟨m, q, b⟩ = urlParam ⟨m, q', b'⟩ := by
    unfold urlParam
    by_cases hm : m = "POST".data
    · simp [hm, hpost hm]
    · simp [hm, hother hm]
  exact handler_congr ⟨m, q, b⟩ ⟨m, q', b'⟩ w rfl hu

/-- Witness for `url_source_by_method`: a POST request gives the same result
whether or not a (different) url rides along in the query string. -/
theorem url_source_by_method_witness :
    handler ⟨"POST".data, some "https://other/x.m3u8".data,
        some "https://cdn.example.com/path/master.m3u8".data⟩ okWorld
      = handler ⟨"POST".data, none,
          some "https://cdn.example.com/path/master.m3u8".data⟩ okWorld :=
  url_source_by_method "POST".data (some "https://other/x.m3u8".data) none
    (some "https://cdn.example.com/path/master.m3u8".data)
    (some "https://cdn.example.com/path/master.m3u8".data) okWorld
    (fun _ => rfl) (fun h => absurd rfl h)

/-- Claim C3 (counterexample): an exception thrown after the concat-list temp
file has been written lands in the catch block (download.js lines 131-153),
which sends the 500 response but deletes nothing, so the concat-list file of
that request is left in the temp directory. -/
theorem cleanup_exception_path_counterexample :
    (handler sampleGetReq { okWorld with postWriteThrow := true }).tempFilesLeft
      = [TempFile.segmentsListFile 17] ∧
    (handler sampleGetReq { okWorld with postWriteThrow := true }).tempFilesLeft
      ≠ [] := by
  refine ⟨by decide, by decide⟩

/-- Claim C3 (amended): on the transcode-success and transcode-failure paths
(the transcoder's terminal `end`/`error` events) — and on every path that
never reaches a post-write exception — no temp file of the request remains;
the only possible leftover is the concat-list file, and only on the path
where an exception is thrown after it was written, since the catch block
performs no cleanup. The output path placeholder never remains. -/
theorem cleanup_terminal_event_paths (req : Request) (w : World) :
    (w.postWriteThrow = false → (handler req w).tempFilesLeft = []) ∧
    ((handler req w).tempFilesLeft = [] ∨
      (w.postWriteThrow = true ∧
        (handler req w).tempFilesLeft = [TempFile.segmentsListFile w.now])) := by
  constructor
  · intro hpw
    unfold handler
    repeat' split
    all_goals
      simp_all [catchResponse_tempFilesLeft, missingUrlResponse]
  · unfold handler
    repeat' split
    all_goals
      simp_all [catchResponse_tempFilesLeft, missingUrlResponse]

/-- Claim C4 (counterexample): when the transcoder fails, the `error` handler
runs cleanup and calls `reject(err)`; because the promise is returned (not
awaited) inside the `try` block, the rejection is not caught by the catch
block — the handler's promise rejects while the response body is the
partial stream, with no classified error response mapped. -/
theorem runner_error_escapes_counterexample :
    (handler samplePostReq { okWorld with ffmpegOk := false }).rejected = true ∧
    (handler samplePostReq { okWorld with ffmpegOk := false }).body
      = RespBody.stream := by
  refine ⟨by decide, by decide⟩

/-- Claim C4 (amended): every error raised by the Fetcher (HTTP or network
failure), the Parser (exception), or the Builder (filesystem write failure)
is caught at the handler layer and mapped to exactly one classified error
response (status 404, 403 or 500, never the stream body) with no escaping
fault; a Runner (transcoder) failure instead deletes the temp files and
rejects the handler's promise — the fault escapes uncaught, with no
classified error response. -/
theorem pipeline_errors_caught_except_runner (req : Request) (w : World)
    (u : JStr)
    (hm : req.method = "GET".data ∨ req.method = "POST".data)
    (hu : urlParam req = some u) (hne : ¬ u = [])
    (hincl : jsIncludes ".m3u8".data u = true) :
    (((∃ s, w.fetch u = .errStatus s) ∨ w.fetch u = .errNet) →
      ((handler req w).status = 404 ∨ (handler req w).status = 403 ∨
        (handler req w).status = 500) ∧
      (handler req w).body ≠ RespBody.stream ∧
      (handler req w).rejected = false) ∧
    (∀ c, w.fetch u = .ok c → w.parse c = .threw →
      (handler req w).status = 500 ∧ (handler req w).rejected = false) ∧
    (∀ c uris, w.fetch u = .ok c → w.parse c = .segs uris → uris ≠ [] →
      w.writeOk = false →
      (handler req w).status = 500 ∧ (handler req w).rejected = false) ∧
    (∀ c uris, w.fetch u = .ok c → w.parse c = .segs uris → uris ≠ [] →
      w.writeOk = true → w.postWriteThrow = false → w.ffmpegOk = false →
      (handler req w).rejected = true ∧ (handler req w).tempFilesLeft = []) := by
  rw [handler_pipeline req w u hm hu hne hincl]
  refine ⟨?_, ?_, ?_, ?_⟩
  · rintro (⟨s, hf⟩ | hf) <;> rw [hf] <;>
      exact ⟨catchResponse_status_classified _ _,
             catchResponse_body_ne_stream _ _, catchResponse_rejected _ _⟩
  · intro c hf hp
    simp only [hf, hp]
    exact ⟨rfl, rfl⟩
  · intro c uris hf hp hnil hw
    simp only [hf, hp]
    simp [hnil, hw, catchResponse_rejected]
    rfl
  · intro c uris hf hp hnil hw hpw hff
    simp only [hf, hp]
    simp [hnil, hw, hpw, hff]

/-- Witness for `pipeline_errors_caught_except_runner`: a GET request whose
manifest fetch fails at network level is answered with a classified error
and no escaping fault. -/
theorem pipeline_errors_caught_except_runner_witness :
    ((handler sampleGetReq { okWorld with fetch := fun _ => .errNet }).status = 404 ∨
     (handler sampleGetReq { okWorld with fetch := fun _ => .errNet }).status = 403 ∨
     (handler sampleGetReq { okWorld with fetch := fun _ => .errNet }).status = 500) ∧
    (handler sampleGetReq { okWorld with fetch := fun _ => .errNet }).body
      ≠ RespBody.stream ∧
    (handler sampleGetReq { okWorld with fetch := fun _ => .errNet }).rejected
      = false :=
  (pipeline_errors_caught_except_runner sampleGetReq
      { okWorld with fetch := fun _ => .errNet }
      "https://cdn.example.com/path/master.m3u8".data
      (Or.inl rfl) (by decide) (by decide) (by decide)).1 (Or.inr rfl)

/-- Claim C6 (counterexample): a transcoder failure is not mapped to status
500 — by that point the streaming headers (status 200) are already set and
the rejection escapes the catch block, so the run ends with status 200 and
a rejected promise. -/
theorem transcoder_failure_not_500_counterexample :
    (handler sampleGetReq { okWorld with ffmpegOk := false }).status = 200 ∧
    (handler sampleGetReq { okWorld with ffmpegOk := false }).status ≠ 500 ∧
    (handler sampleGetReq { okWorld with ffmpegOk := false }).rejected = true := by
  refine ⟨by decide, by decide, by decide⟩

/-- Claim C6 (amended): an upstream fetch status of 404 is answered 404 and
403 is answered 403; any other upstream status, a network error without a
status, a parser exception, and a filesystem write failure are all answered
500; a transcoder failure, however, is not mapped to 500 — the run ends
with the streaming status 200 and the handler's promise rejected. -/
theorem upstream_status_mapping (req : Request) (w : World) (u : JStr)
    (hm : req.method = "GET".data ∨ req.method = "POST".data)
    (hu : urlParam req = some u) (hne : ¬ u = [])
    (hincl : jsIncludes ".m3u8".data u = true) :
    (w.fetch u = .errStatus 404 → (handler req w).status = 404) ∧
    (w.fetch u = .errStatus 403 → (handler req w).status = 403) ∧
    (∀ s, w.fetch u = .errStatus s → s ≠ 404 → s ≠ 403 →
      (handler req w).status = 500) ∧
    (w.fetch u = .errNet → (handler req w).status = 500) ∧
    (∀ c, w.fetch u = .ok c → w.parse c = .threw → (handler req w).status = 500) ∧
    (∀ c uris, w.fetch u = .ok c → w.parse c = .segs uris → uris ≠ [] →
      w.writeOk = false → (handler req w).status = 500) ∧
    (∀ c uris, w.fetch u = .ok c → w.parse c = .segs uris → uris ≠ [] →
      w.writeOk = true → w.postWriteThrow = false → w.ffmpegOk = false →
      (handler req w).status = 200 ∧ (handler req w).status ≠ 500 ∧
      (handler req w).rejected = true) := by
  rw [handler_pipeline req w u hm hu hne hincl]
  refine ⟨?_, ?_, ?_, ?_, ?_, ?_, ?_⟩
  · intro hf
    simp only [hf]
    rfl
  · intro hf
    simp only [hf]
    rfl
  · intro s hf h4 h3
    simp only [hf]
    exact catchResponse_other_500 s [] h4 h3
  · intro hf
    simp only [hf]
    rfl
  · intro c hf hp
    simp only [hf, hp]
    rfl
  · intro c uris hf hp hnil hw
    simp only [hf, hp]
    simp [hnil, hw]
    rfl
  · intro c uris hf hp hnil hw hpw hff
    simp only [hf, hp]
    simp [hnil, hw, hpw, hff]

/-- Witness for `upstream_status_mapping`: an upstream 404 on the manifest
fetch is answered 404. -/
theorem upstream_status_mapping_witness :
    (handler samplePostReq { okWorld with fetch := fun _ => .errStatus 404 }).status
      = 404 :=
  (upstream_status_mapping samplePostReq
      { okWorld with fetch := fun _ => .errStatus 404 }
      "https://cdn.example.com/path/master.m3u8".data
      (Or.inr rfl) (by decide) (by decide) (by decide)).1 rfl

/-- Claim C5: for every GET or POST request, the response status is 400
exactly when the url parameter is missing (absent or empty), or the url
does not contain the substring `.m3u8`, or the fetched manifest parses to
zero segments. -/
theorem status_400_iff_validation_failure (req : Request) (w : World)
    (hm : req.method = "GET".data ∨ req.method = "POST".data) :
    (handler req w).status = 400 ↔
      urlParam req = none ∨ urlParam req = some [] ∨
      ∃ u, urlParam req = some u ∧
        (jsIncludes ".m3u8".data u = false ∨
         ∃ c, w.fetch u = FetchOutcome.ok c ∧ w.parse c = ParseOutcome.segs []) := by
  have hO : req.method ≠ "OPTIONS".data := by
    rcases hm with h | h <;> (rw [h]; decide)
  have hPG : ¬(req.method ≠ "POST".data ∧ req.method ≠ "GET".data) := by
    rcases hm with h | h <;> simp [h]
  rcases hurl : urlParam req with _ | u
  · apply iff_of_true
    · simp [handler, if_neg hO, if_neg hPG, hurl, missingUrlResponse]
    · exact Or.inl rfl
  · by_cases hu : u = []
    · subst hu
      apply iff_of_true
      · simp [handler, if_neg hO, if_neg hPG, hurl, missingUrlResponse]
      · exact Or.inr (Or.inl rfl)
    · by_cases hincl : jsIncludes ".m3u8".data u = true
      · rw [handler_pipeline req w u hm hurl hu hincl]
        rcases hf : w.fetch u with c | s | _
        · rcases hp : w.parse c with _ | uris
          · simp only [hf, hp]
            apply iff_of_false (catchResponse_status_ne_400 _ _)
            simp [hurl, hu, hincl, hf, hp]
          · by_cases huris : uris = []
            · subst huris
              simp only [hf, hp]
              apply iff_of_true
              · rfl
              · exact Or.inr (Or.inr ⟨u, rfl, Or.inr ⟨c, hf, hp⟩⟩)
            · simp only [hf, hp]
              rw [if_neg huris]
              apply iff_of_false
              · split
                · exact catchResponse_status_ne_400 _ _
                · split
                  · exact catchResponse_status_ne_400 _ _
                  · split <;> simp
              · simp [hurl, hu, hincl, hf, hp, huris]
        · simp only [hf]
          apply iff_of_false (catchResponse_status_ne_400 _ _)
          simp [hurl, hu, hincl, hf]
        · simp only [hf]
          apply iff_of_false (catchResponse_status_ne_400 _ _)
          simp [hurl, hu, hincl, hf]
      · have hfalse : jsIncludes ".m3u8".data u = false := by simpa using hincl
        apply iff_of_true
        · simp [handler, if_neg hO, if_neg hPG, hurl, hu, hfalse]
        · exact Or.inr (Or.inr ⟨u, rfl, Or.inl hfalse⟩)

/-- Witness for `status_400_iff_validation_failure`: a GET request without a
url parameter is answered 400, and the successful sample run is not. -/
theorem status_400_iff_validation_failure_witness :
    (handler ⟨"GET".data, none, none⟩ okWorld).status = 400 :=
  (status_400_iff_validation_failure ⟨"GET".data, none, none⟩ okWorld
      (Or.inl rfl)).mpr (Or.inl (by decide))

/-- Witness for `cleanup_terminal_event_paths`: after the successful sample
run no temp file of the request remains. -/
theorem cleanup_terminal_event_paths_witness :
    (handler sampleGetReq okWorld).tempFilesLeft = [] :=
  (cleanup_terminal_event_paths sampleGetReq okWorld).1 rfl
